import Mathlib

/-!
# Verification of `pkg/provider/provider.go`

The file is an adapter: an `InventoryProvider` stores a kubectl factory and
hands out components built by that factory and by the packages `inventory`
and `manifestreader`.

## Embedding

* Every call into code outside `provider.go` (the methods of the factory and
  the functions of package `inventory`) may read and change the world and may
  panic.  Such a call is a function from a world state to an `Outcome`:
  a normal return with a value and the next world state, or a panic.
* A Go `error` is `Option Err`: `none` is the nil error.
* An interface value that the code itself may set to nil (the returned
  manifest reader, the `io.Reader` argument) is an `Option`.
* A Go slice is a `List`; `args[0]` is the fallible lookup `args[0]?`, and a
  failed lookup is a panic of the embedded function.
* The types that belong to other packages are collected in `Types`.
-/

namespace Provider

/-- The types of the packages `provider.go` uses and does not define. -/
structure Types where
  /-- Everything the external calls may read or change. -/
  World : Type
  /-- Non-nil values of the interface `error`. -/
  Err : Type
  /-- Values of `meta.RESTMapper`. -/
  Mapper : Type
  /-- Non-nil values of `io.Reader`. -/
  Reader : Type
  /-- Values of `inventory.InventoryClient`. -/
  Client : Type
  /-- Values of `inventory.InventoryInfo`. -/
  Info : Type
  /-- Values of `*unstructured.Unstructured`. -/
  Obj : Type
  /-- Type of the strategy function `inventory.WrapInventoryObj`. -/
  WrapFn : Type
  /-- Type of the strategy function `inventory.InvInfoToConfigMap`. -/
  ToConfigMapFn : Type

/-- How a call ends: it returns `val` and leaves the world in `st`, or it panics. -/
inductive Outcome (σ α : Type) where
  | ret (val : α) (st : σ)
  | panic (msg : String)

/-- A call that starts in a world state. -/
abbrev Call (σ α : Type) : Type := σ → Outcome σ α

/-- The interface `clientcmd.ClientConfig`, restricted to the method
`Namespace() (string, bool, error)` that `provider.go` calls. -/
structure ClientConfig (T : Types) where
  Namespace : Call T.World (String × Bool × Option T.Err)

/-- The interface `util.Factory`, restricted to the two methods that
`provider.go` calls.  A nil factory is a factory both of whose methods panic. -/
structure Factory (T : Types) where
  ToRawKubeConfigLoader : Call T.World (ClientConfig T)
  ToRESTMapper : Call T.World (T.Mapper × Option T.Err)

/-- The expression `f.factory.ToRawKubeConfigLoader().Namespace()` of
`ManifestReader`: the raw config loader is built, then asked for the
namespace, the enforce flag and an error. -/
def Factory.resolveNamespace {T : Types} (H : Factory T) :
    Call T.World (String × Bool × Option T.Err) := fun s =>
  match H.ToRawKubeConfigLoader s with
  | .panic msg => .panic msg
  | .ret loader s1 => loader.Namespace s1

/-- The functions of package `inventory` that `provider.go` calls or passes on.
They are parameters of the embedding: the adapter is verified for every
implementation of them. -/
structure InventoryPkg (T : Types) where
  NewInventoryClient :
    Factory T → T.WrapFn → T.ToConfigMapFn → Call T.World (T.Client × Option T.Err)
  WrapInventoryObj : T.WrapFn
  InvInfoToConfigMap : T.ToConfigMapFn
  SplitUnstructureds : List T.Obj → Call T.World (T.Info × List T.Obj × Option T.Err)

/-- Modelled from the spec: the struct `manifestreader.ReaderOptions` is declared
outside `provider.go`; the spec describes it as a bundle of a REST-mapping
resolver, a target namespace string and an enforce-namespace flag, which are
the three fields the composite literal in `ManifestReader` sets. -/
structure ReaderOptions (T : Types) where
  Mapper : T.Mapper
  Namespace : String
  EnforceNamespace : Bool

/-- Modelled from the spec: the struct `manifestreader.StreamManifestReader` is
declared outside `provider.go`; it takes reader options and a stream handle,
and the composite literal in `ManifestReader` sets a diagnostic name as well. -/
structure StreamManifestReader (T : Types) where
  ReaderName : String
  Reader : Option T.Reader
  ReaderOptions : ReaderOptions T

/-- Modelled from the spec: the struct `manifestreader.PathManifestReader` is
declared outside `provider.go`; it takes reader options and a path string. -/
structure PathManifestReader (T : Types) where
  Path : String
  ReaderOptions : ReaderOptions T

/-- Non-nil values of the interface `manifestreader.ManifestReader` that
`provider.go` builds: a pointer to one of the two reader structs. -/
inductive ManifestReader (T : Types) where
  | stream (r : StreamManifestReader T)
  | path (r : PathManifestReader T)

/-- The embedded `ReaderOptions` field of either reader struct. -/
def ManifestReader.readerOptions {T : Types} : ManifestReader T → ReaderOptions T
  | .stream r => r.ReaderOptions
  | .path r => r.ReaderOptions

/-- The struct `InventoryProvider`. -/
structure InventoryProvider (T : Types) where
  factory : Factory T

/-- The function `NewProvider`. -/
def NewProvider {T : Types} (f : Factory T) : InventoryProvider T :=
  { factory := f }

/-- The method `Factory`. -/
def InventoryProvider.Factory {T : Types} (f : InventoryProvider T) : Factory T :=
  f.factory

/-- The method `InventoryClient`. -/
def InventoryProvider.InventoryClient {T : Types} (inventory : InventoryPkg T)
    (f : InventoryProvider T) : Call T.World (T.Client × Option T.Err) :=
  inventory.NewInventoryClient f.factory
    inventory.WrapInventoryObj
    inventory.InvInfoToConfigMap

/-- The method `InventoryInfo`. -/
def InventoryProvider.InventoryInfo {T : Types} (inventory : InventoryPkg T)
    (_f : InventoryProvider T) (objs : List T.Obj) :
    Call T.World (T.Info × List T.Obj × Option T.Err) :=
  inventory.SplitUnstructureds objs

/-- The method `ToRESTMapper`. -/
def InventoryProvider.ToRESTMapper {T : Types} (f : InventoryProvider T) :
    Call T.World (T.Mapper × Option T.Err) :=
  f.factory.ToRESTMapper

/-- The method `ManifestReader`.  The result pairs the returned interface value
(`none` is nil) with the returned error. -/
def InventoryProvider.ManifestReader {T : Types} (f : InventoryProvider T)
    (reader : Option T.Reader) (args : List String) :
    Call T.World (Option (ManifestReader T) × Option T.Err) := fun s =>
  match f.factory.resolveNamespace s with
  | .panic msg => .panic msg
  | .ret (_, _, some err) s1 => .ret (none, some err) s1
  | .ret (nspace, enforceNamespace, none) s1 =>
    match f.factory.ToRESTMapper s1 with
    | .panic msg => .panic msg
    | .ret (_, some err) s2 => .ret (none, some err) s2
    | .ret (mapper, none) s2 =>
      let readerOptions : ReaderOptions T :=
        { Mapper := mapper
          Namespace := nspace
          EnforceNamespace := enforceNamespace }
      if args.length = 0 then
        .ret (some (.stream
          { ReaderName := "stdin"
            Reader := reader
            ReaderOptions := readerOptions }), none) s2
      else
        match args[0]? with
        | none => .panic "runtime error: index out of range [0] with length 0"
        | some path =>
          .ret (some (.path
            { Path := path
              ReaderOptions := readerOptions }), none) s2

/-! ## A concrete world

The external types are instantiated with strings and numbers; the world is the
log of the external calls made so far, oldest first. -/

/-- Concrete external types: the world is a call log. -/
abbrev demoTypes : Types :=
  { World := List String
    Err := String
    Mapper := String
    Reader := String
    Client := String × String
    Info := Option Nat
    Obj := Nat
    WrapFn := String
    ToConfigMapFn := String }

/-- A raw config loader that answers namespace `"default"`, enforce flag `true`
and the given error. -/
def demoLoader (nsErr : Option String) : ClientConfig demoTypes :=
  { Namespace := fun s => .ret ("default", true, nsErr) (s ++ ["Namespace"]) }

/-- A factory whose namespace resolution and REST-mapper builder return the
given errors. -/
def demoFactory (nsErr mapErr : Option String) : Factory demoTypes :=
  { ToRawKubeConfigLoader := fun s =>
      .ret (demoLoader nsErr) (s ++ ["ToRawKubeConfigLoader"])
    ToRESTMapper := fun s => .ret ("mapper", mapErr) (s ++ ["ToRESTMapper"]) }

/-- An inventory package: the classifier treats the object `0` as the inventory
object and rejects a sequence with more than one of them; the client
constructor returns the pair of the two strategies it was given as the client,
and the given error. -/
def demoInventory (clientErr : Option String) : InventoryPkg demoTypes :=
  { NewInventoryClient := fun _ wrap toCM s =>
      .ret ((wrap, toCM), clientErr) (s ++ ["NewInventoryClient"])
    WrapInventoryObj := "WrapInventoryObj"
    InvInfoToConfigMap := "InvInfoToConfigMap"
    SplitUnstructureds := fun objs s =>
      if 1 < objs.count 0 then
        .ret (none, [], some "multiple inventory objects") s
      else if objs.count 0 = 1 then
        .ret (some 0, objs.filter (fun o => o != 0), none) s
      else
        .ret (none, objs, none) s }

/-! ## Shared lemmas about `ManifestReader` -/

section Lemmas

variable {T : Types}

theorem manifestReader_of_ns_error (p : InventoryProvider T) (r : Option T.Reader)
    (args : List String) (s s1 : T.World) (ns : String) (enf : Bool) (e : T.Err)
    (hns : p.factory.resolveNamespace s = .ret (ns, enf, some e) s1) :
    p.ManifestReader r args s = .ret (none, some e) s1 := by
  simp [InventoryProvider.ManifestReader, hns]

theorem manifestReader_of_mapper_error (p : InventoryProvider T) (r : Option T.Reader)
    (args : List String) (s s1 s2 : T.World) (ns : String) (enf : Bool)
    (m : T.Mapper) (e : T.Err)
    (hns : p.factory.resolveNamespace s = .ret (ns, enf, none) s1)
    (hm : p.factory.ToRESTMapper s1 = .ret (m, some e) s2) :
    p.ManifestReader r args s = .ret (none, some e) s2 := by
  simp [InventoryProvider.ManifestReader, hns, hm]

theorem manifestReader_of_ok_nil (p : InventoryProvider T) (r : Option T.Reader)
    (s s1 s2 : T.World) (ns : String) (enf : Bool) (m : T.Mapper)
    (hns : p.factory.resolveNamespace s = .ret (ns, enf, none) s1)
    (hm : p.factory.ToRESTMapper s1 = .ret (m, none) s2) :
    p.ManifestReader r [] s =
      .ret (some (.stream ⟨"stdin", r, ⟨m, ns, enf⟩⟩), none) s2 := by
  simp [InventoryProvider.ManifestReader, hns, hm]

theorem manifestReader_of_ok_cons (p : InventoryProvider T) (r : Option T.Reader)
    (a : String) (rest : List String)
    (s s1 s2 : T.World) (ns : String) (enf : Bool) (m : T.Mapper)
    (hns : p.factory.resolveNamespace s = .ret (ns, enf, none) s1)
    (hm : p.factory.ToRESTMapper s1 = .ret (m, none) s2) :
    p.ManifestReader r (a :: rest) s =
      .ret (some (.path ⟨a, ⟨m, ns, enf⟩⟩), none) s2 := by
  simp [InventoryProvider.ManifestReader, hns, hm]

theorem manifestReader_of_ns_panic (p : InventoryProvider T) (r : Option T.Reader)
    (args : List String) (s : T.World) (msg : String)
    (hns : p.factory.resolveNamespace s = .panic msg) :
    p.ManifestReader r args s = .panic msg := by
  simp [InventoryProvider.ManifestReader, hns]

theorem manifestReader_of_mapper_panic (p : InventoryProvider T) (r : Option T.Reader)
    (args : List String) (s s1 : T.World) (ns : String) (enf : Bool) (msg : String)
    (hns : p.factory.resolveNamespace s = .ret (ns, enf, none) s1)
    (hm : p.factory.ToRESTMapper s1 = .panic msg) :
    p.ManifestReader r args s = .panic msg := by
  simp [InventoryProvider.ManifestReader, hns, hm]

end Lemmas

/-! ## The manifest-reader constructor -/

section ManifestReaderClaims

variable {T : Types}

/-- C1: for a provider built by `NewProvider H`, every input stream `r` and the
empty argument sequence, if namespace resolution and REST-mapper construction
both succeed, `ManifestReader r []` returns, with a nil error, the stream-backed
reader whose `Reader` is `r` and whose `ReaderName` is `"stdin"`; it does not
return a path-backed reader. -/
theorem manifestReader_empty_args_stream (H : Factory T) (r : Option T.Reader)
    (s s1 s2 : T.World) (ns : String) (enf : Bool) (m : T.Mapper)
    (hns : H.resolveNamespace s = .ret (ns, enf, none) s1)
    (hm : H.ToRESTMapper s1 = .ret (m, none) s2) :
    (∃ sr : StreamManifestReader T,
        (NewProvider H).ManifestReader r [] s = .ret (some (.stream sr), none) s2 ∧
        sr.Reader = r ∧ sr.ReaderName = "stdin") ∧
      ∀ (pr : PathManifestReader T) (err : Option T.Err) (st : T.World),
        (NewProvider H).ManifestReader r [] s ≠ .ret (some (.path pr), err) st := by
  have h := manifestReader_of_ok_nil (NewProvider H) r s s1 s2 ns enf m hns hm
  refine ⟨⟨_, h, rfl, rfl⟩, ?_⟩
  intro pr err st hp
  rw [h] at hp
  cases hp

/-- Instance of C1: a factory whose calls succeed, the stream `"in"`, no
arguments. -/
theorem manifestReader_empty_args_stream_witness :
    (∃ sr : StreamManifestReader demoTypes,
        (NewProvider (demoFactory none none)).ManifestReader (some "in") [] [] =
          .ret (some (.stream sr), none)
            ["ToRawKubeConfigLoader", "Namespace", "ToRESTMapper"] ∧
        sr.Reader = some "in" ∧ sr.ReaderName = "stdin") ∧
      ∀ (pr : PathManifestReader demoTypes) (err : Option String) (st : List String),
        (NewProvider (demoFactory none none)).ManifestReader (some "in") [] [] ≠
          .ret (some (.path pr), err) st :=
  manifestReader_empty_args_stream (demoFactory none none) (some "in") []
    ["ToRawKubeConfigLoader", "Namespace"]
    ["ToRawKubeConfigLoader", "Namespace", "ToRESTMapper"]
    "default" true "mapper" rfl rfl

/-- C2: for a non-empty argument sequence `a :: rest`, if namespace resolution
and REST-mapper construction both succeed, `ManifestReader r (a :: rest)`
returns, with a nil error, the path-backed reader whose `Path` is `a`; the
outcome is the one of `ManifestReader r2 [a]` for every other stream `r2`, so it
depends neither on `rest` nor on the stream. -/
theorem manifestReader_args_path (H : Factory T) (r r2 : Option T.Reader)
    (a : String) (rest : List String)
    (s s1 s2 : T.World) (ns : String) (enf : Bool) (m : T.Mapper)
    (hns : H.resolveNamespace s = .ret (ns, enf, none) s1)
    (hm : H.ToRESTMapper s1 = .ret (m, none) s2) :
    (∃ pr : PathManifestReader T,
        (NewProvider H).ManifestReader r (a :: rest) s =
          .ret (some (.path pr), none) s2 ∧
        pr.Path = a) ∧
      (NewProvider H).ManifestReader r (a :: rest) s =
        (NewProvider H).ManifestReader r2 [a] s := by
  have h := manifestReader_of_ok_cons (NewProvider H) r a rest s s1 s2 ns enf m hns hm
  have h2 := manifestReader_of_ok_cons (NewProvider H) r2 a [] s s1 s2 ns enf m hns hm
  exact ⟨⟨_, h, rfl⟩, h.trans h2.symm⟩

/-- Instance of C2: three arguments and a stream against one argument and a nil
stream. -/
theorem manifestReader_args_path_witness :
    (∃ pr : PathManifestReader demoTypes,
        (NewProvider (demoFactory none none)).ManifestReader (some "in")
            ["dir", "extra", "more"] [] =
          .ret (some (.path pr), none)
            ["ToRawKubeConfigLoader", "Namespace", "ToRESTMapper"] ∧
        pr.Path = "dir") ∧
      (NewProvider (demoFactory none none)).ManifestReader (some "in")
          ["dir", "extra", "more"] [] =
        (NewProvider (demoFactory none none)).ManifestReader none ["dir"] [] :=
  manifestReader_args_path (demoFactory none none) (some "in") none "dir"
    ["extra", "more"] []
    ["ToRawKubeConfigLoader", "Namespace"]
    ["ToRawKubeConfigLoader", "Namespace", "ToRESTMapper"]
    "default" true "mapper" rfl rfl

/-- C3: for every input stream and argument sequence, if namespace resolution
fails with error `e`, `ManifestReader` returns a nil reader and exactly `e`;
this stays so when the REST-mapper builder of the factory is replaced by any
other builder. -/
theorem manifestReader_namespace_error (H : Factory T) (r : Option T.Reader)
    (args : List String) (s s1 : T.World) (ns : String) (enf : Bool) (e : T.Err)
    (hns : H.resolveNamespace s = .ret (ns, enf, some e) s1) :
    (NewProvider H).ManifestReader r args s = .ret (none, some e) s1 ∧
      ∀ build : Call T.World (T.Mapper × Option T.Err),
        (NewProvider { H with ToRESTMapper := build }).ManifestReader r args s =
          .ret (none, some e) s1 :=
  ⟨manifestReader_of_ns_error (NewProvider H) r args s s1 ns enf e hns,
   fun build =>
    manifestReader_of_ns_error (NewProvider { H with ToRESTMapper := build })
      r args s s1 ns enf e hns⟩

/-- Instance of C3: namespace resolution fails with `"no context"`; the
REST-mapper builder is never called. -/
theorem manifestReader_namespace_error_witness :
    (NewProvider (demoFactory (some "no context") none)).ManifestReader (some "in")
        ["dir"] [] =
      .ret (none, some "no context") ["ToRawKubeConfigLoader", "Namespace"] ∧
      ∀ build : Call (List String) (String × Option String),
        (NewProvider
            { demoFactory (some "no context") none with
              ToRESTMapper := build }).ManifestReader (some "in") ["dir"] [] =
          .ret (none, some "no context") ["ToRawKubeConfigLoader", "Namespace"] :=
  manifestReader_namespace_error (demoFactory (some "no context") none) (some "in")
    ["dir"] [] ["ToRawKubeConfigLoader", "Namespace"] "default" true "no context" rfl

/-- C4: for every input stream and argument sequence, if namespace resolution
succeeds and the REST-mapper builder then fails with error `e`,
`ManifestReader` returns a nil reader and exactly `e`. -/
theorem manifestReader_mapper_error (H : Factory T) (r : Option T.Reader)
    (args : List String) (s s1 s2 : T.World) (ns : String) (enf : Bool)
    (m : T.Mapper) (e : T.Err)
    (hns : H.resolveNamespace s = .ret (ns, enf, none) s1)
    (hm : H.ToRESTMapper s1 = .ret (m, some e) s2) :
    (NewProvider H).ManifestReader r args s = .ret (none, some e) s2 :=
  manifestReader_of_mapper_error (NewProvider H) r args s s1 s2 ns enf m e hns hm

/-- Instance of C4: the REST-mapper builder fails with `"discovery failed"`. -/
theorem manifestReader_mapper_error_witness :
    (NewProvider (demoFactory none (some "discovery failed"))).ManifestReader none
        [] [] =
      .ret (none, some "discovery failed")
        ["ToRawKubeConfigLoader", "Namespace", "ToRESTMapper"] :=
  manifestReader_mapper_error (demoFactory none (some "discovery failed")) none []
    [] ["ToRawKubeConfigLoader", "Namespace"]
    ["ToRawKubeConfigLoader", "Namespace", "ToRESTMapper"]
    "default" true "mapper" "discovery failed" rfl rfl

/-- C5: whenever `ManifestReader` succeeds (it returns a nil error), with any
argument sequence and so for either variant, the raw config loader of the
factory of the provider returned a namespace and an enforce flag with a nil
error, the REST-mapper builder of that same factory then returned a mapper with
a nil error, the returned reader is non-nil, and its reader options carry
exactly that namespace, that flag and that mapper. -/
theorem manifestReader_options_from_factory (H : Factory T) (r : Option T.Reader)
    (args : List String) (s st : T.World) (v : Option (ManifestReader T))
    (hok : (NewProvider H).ManifestReader r args s = .ret (v, none) st) :
    ∃ (ns : String) (enf : Bool) (s1 : T.World) (m : T.Mapper) (mr : ManifestReader T),
      (NewProvider H).Factory.resolveNamespace s = .ret (ns, enf, none) s1 ∧
      (NewProvider H).Factory.ToRESTMapper s1 = .ret (m, none) st ∧
      v = some mr ∧
      mr.readerOptions.Namespace = ns ∧
      mr.readerOptions.EnforceNamespace = enf ∧
      mr.readerOptions.Mapper = m := by
  rcases hns : H.resolveNamespace s with ⟨⟨ns, enf, err⟩, s1⟩ | msg
  · cases err with
    | some e1 =>
      rw [manifestReader_of_ns_error (NewProvider H) r args s s1 ns enf e1 hns] at hok
      cases hok
    | none =>
      rcases hm : H.ToRESTMapper s1 with ⟨⟨m, merr⟩, s2⟩ | msg2
      · cases merr with
        | some e2 =>
          rw [manifestReader_of_mapper_error (NewProvider H) r args s s1 s2 ns enf m e2
            hns hm] at hok
          cases hok
        | none =>
          cases args with
          | nil =>
            rw [manifestReader_of_ok_nil (NewProvider H) r s s1 s2 ns enf m hns hm] at hok
            cases hok
            exact ⟨ns, enf, s1, m, _, hns, hm, rfl, rfl, rfl, rfl⟩
          | cons a rest =>
            rw [manifestReader_of_ok_cons (NewProvider H) r a rest s s1 s2 ns enf m
              hns hm] at hok
            cases hok
            exact ⟨ns, enf, s1, m, _, hns, hm, rfl, rfl, rfl, rfl⟩
      · rw [manifestReader_of_mapper_panic (NewProvider H) r args s s1 ns enf msg2 hns hm]
          at hok
        cases hok
  · rw [manifestReader_of_ns_panic (NewProvider H) r args s msg hns] at hok
    cases hok

/-- Instance of C5: a successful call with one argument; the path-backed reader
carries the namespace `"default"`, the flag `true` and the mapper `"mapper"` of
the factory. -/
theorem manifestReader_options_from_factory_witness :
    ∃ (ns : String) (enf : Bool) (s1 : List String) (m : String)
        (mr : ManifestReader demoTypes),
      (NewProvider (demoFactory none none)).Factory.resolveNamespace [] =
        .ret (ns, enf, none) s1 ∧
      (NewProvider (demoFactory none none)).Factory.ToRESTMapper s1 =
        .ret (m, none) ["ToRawKubeConfigLoader", "Namespace", "ToRESTMapper"] ∧
      some (ManifestReader.path ⟨"dir", ⟨"mapper", "default", true⟩⟩) = some mr ∧
      mr.readerOptions.Namespace = ns ∧
      mr.readerOptions.EnforceNamespace = enf ∧
      mr.readerOptions.Mapper = m :=
  manifestReader_options_from_factory (demoFactory none none) (some "in") ["dir"] []
    ["ToRawKubeConfigLoader", "Namespace", "ToRESTMapper"]
    (some (.path ⟨"dir", ⟨"mapper", "default", true⟩⟩)) rfl

/-- C10: for every input stream `r` (nil included) and argument sequence,
`ManifestReader` returns a non-nil error exactly when namespace resolution
returns an error or, after it, the REST-mapper builder returns an error; when
both succeed it returns a non-nil reader and a nil error; and it panics only
with a panic of one of the two calls on the factory, so indexing `args[0]` never
fails. -/
theorem manifestReader_error_iff (H : Factory T) (r : Option T.Reader)
    (args : List String) (s : T.World) :
    ((∃ v e st, (NewProvider H).ManifestReader r args s = .ret (v, some e) st) ↔
      ∃ ns enf err s1, H.resolveNamespace s = .ret (ns, enf, err) s1 ∧
        (err ≠ none ∨ ∃ m e s2, H.ToRESTMapper s1 = .ret (m, some e) s2)) ∧
    (∀ ns enf s1 m s2, H.resolveNamespace s = .ret (ns, enf, none) s1 →
      H.ToRESTMapper s1 = .ret (m, none) s2 →
      ∃ mr, (NewProvider H).ManifestReader r args s = .ret (some mr, none) s2) ∧
    (∀ msg, (NewProvider H).ManifestReader r args s = .panic msg →
      H.resolveNamespace s = .panic msg ∨
      ∃ ns enf s1, H.resolveNamespace s = .ret (ns, enf, none) s1 ∧
        H.ToRESTMapper s1 = .panic msg) := by
  have ok : ∀ ns enf s1 m s2, H.resolveNamespace s = .ret (ns, enf, none) s1 →
      H.ToRESTMapper s1 = .ret (m, none) s2 →
      ∃ mr, (NewProvider H).ManifestReader r args s = .ret (some mr, none) s2 := by
    intro ns enf s1 m s2 hns hm
    cases args with
    | nil => exact ⟨_, manifestReader_of_ok_nil (NewProvider H) r s s1 s2 ns enf m hns hm⟩
    | cons a rest =>
      exact ⟨_, manifestReader_of_ok_cons (NewProvider H) r a rest s s1 s2 ns enf m hns hm⟩
  refine ⟨⟨?_, ?_⟩, ok, ?_⟩
  · rintro ⟨v, e, st, h⟩
    rcases hns : H.resolveNamespace s with ⟨⟨ns, enf, err⟩, s1⟩ | msg
    · refine ⟨ns, enf, err, s1, rfl, ?_⟩
      cases err with
      | some e1 => exact Or.inl (by simp)
      | none =>
        right
        rcases hm : H.ToRESTMapper s1 with ⟨⟨m, merr⟩, s2⟩ | msg
        · cases merr with
          | some e2 => exact ⟨m, e2, s2, rfl⟩
          | none =>
            obtain ⟨mr, hmr⟩ := ok ns enf s1 m s2 hns hm
            rw [hmr] at h
            cases h
        · rw [manifestReader_of_mapper_panic (NewProvider H) r args s s1 ns enf msg hns hm]
            at h
          cases h
    · rw [manifestReader_of_ns_panic (NewProvider H) r args s msg hns] at h
      cases h
  · rintro ⟨ns, enf, err, s1, hns, herr⟩
    cases err with
    | some e1 =>
      exact ⟨none, e1, s1, manifestReader_of_ns_error (NewProvider H) r args s s1 ns enf e1 hns⟩
    | none =>
      rcases herr with herr | ⟨m, e, s2, hm⟩
      · exact absurd rfl herr
      · exact ⟨none, e, s2,
          manifestReader_of_mapper_error (NewProvider H) r args s s1 s2 ns enf m e hns hm⟩
  · intro msg h
    rcases hns : H.resolveNamespace s with ⟨⟨ns, enf, err⟩, s1⟩ | msg1
    · cases err with
      | some e1 =>
        rw [manifestReader_of_ns_error (NewProvider H) r args s s1 ns enf e1 hns] at h
        cases h
      | none =>
        right
        refine ⟨ns, enf, s1, rfl, ?_⟩
        rcases hm : H.ToRESTMapper s1 with ⟨⟨m, merr⟩, s2⟩ | msg2
        · cases merr with
          | some e2 =>
            rw [manifestReader_of_mapper_error (NewProvider H) r args s s1 s2 ns enf m e2
              hns hm] at h
            cases h
          | none =>
            obtain ⟨mr, hmr⟩ := ok ns enf s1 m s2 hns hm
            rw [hmr] at h
            cases h
        · rw [manifestReader_of_mapper_panic (NewProvider H) r args s s1 ns enf msg2 hns hm]
            at h
          cases h
          rfl
    · rw [manifestReader_of_ns_panic (NewProvider H) r args s msg1 hns] at h
      cases h
      exact Or.inl rfl

/-- Instance of C10, with a nil stream and one argument: a failing namespace
resolution gives an error, a failing REST-mapper builder gives an error, two
successes give a reader. -/
theorem manifestReader_error_iff_witness :
    (∃ v e st,
      (NewProvider (demoFactory (some "no context") none)).ManifestReader none
        ["dir"] [] = .ret (v, some e) st) ∧
    (∃ v e st,
      (NewProvider (demoFactory none (some "discovery failed"))).ManifestReader none
        ["dir"] [] = .ret (v, some e) st) ∧
    (∃ mr,
      (NewProvider (demoFactory none none)).ManifestReader none ["dir"] [] =
        .ret (some mr, none) ["ToRawKubeConfigLoader", "Namespace", "ToRESTMapper"]) :=
  ⟨(manifestReader_error_iff (demoFactory (some "no context") none) none ["dir"] []).1.2
      ⟨"default", true, some "no context", ["ToRawKubeConfigLoader", "Namespace"], rfl,
        Or.inl (by simp)⟩,
   (manifestReader_error_iff (demoFactory none (some "discovery failed")) none
      ["dir"] []).1.2
      ⟨"default", true, none, ["ToRawKubeConfigLoader", "Namespace"], rfl,
        Or.inr ⟨"mapper", "discovery failed",
          ["ToRawKubeConfigLoader", "Namespace", "ToRESTMapper"], rfl⟩⟩,
   (manifestReader_error_iff (demoFactory none none) none ["dir"] []).2.1
      "default" true ["ToRawKubeConfigLoader", "Namespace"] "mapper"
      ["ToRawKubeConfigLoader", "Namespace", "ToRESTMapper"] rfl rfl⟩

end ManifestReaderClaims

/-! ## The delegating accessors -/

section AccessorClaims

variable {T : Types}

/-- C6: for every factory `H`, whatever its methods do, `NewProvider H` is the
provider that stores `H` (the function is total: it validates nothing and has
no failing path), and the method `Factory` of that provider returns `H`
itself. -/
theorem newProvider_factory (H : Factory T) :
    NewProvider H = { factory := H } ∧ (NewProvider H).Factory = H :=
  ⟨rfl, rfl⟩

/-- Instance of C6: a factory whose two methods panic, as those of a nil factory
do, is stored and returned all the same. -/
theorem newProvider_factory_witness :
    (NewProvider
        ({ ToRawKubeConfigLoader := fun _ => .panic "nil pointer dereference"
           ToRESTMapper := fun _ => .panic "nil pointer dereference" } :
          Factory demoTypes)).Factory =
      { ToRawKubeConfigLoader := fun _ => .panic "nil pointer dereference"
        ToRESTMapper := fun _ => .panic "nil pointer dereference" } :=
  (newProvider_factory _).2

/-- C7: for every sequence of objects `objs`, `InventoryInfo objs` has exactly
the outcome of `inventory.SplitUnstructureds objs` from the same world state;
so when the classifier returns an inventory result together with the whole
of `objs` and a nil error, `InventoryInfo` returns the same, and when the
classifier returns an error, `InventoryInfo` returns that error. -/
theorem inventoryInfo_passthrough (inventory : InventoryPkg T) (H : Factory T)
    (objs : List T.Obj) (s : T.World) :
    (NewProvider H).InventoryInfo inventory objs s =
        inventory.SplitUnstructureds objs s ∧
      (∀ inv st, inventory.SplitUnstructureds objs s = .ret (inv, objs, none) st →
        (NewProvider H).InventoryInfo inventory objs s = .ret (inv, objs, none) st) ∧
      (∀ inv rest e st,
        inventory.SplitUnstructureds objs s = .ret (inv, rest, some e) st →
        (NewProvider H).InventoryInfo inventory objs s = .ret (inv, rest, some e) st) :=
  ⟨rfl, fun _ _ h => h, fun _ _ _ _ h => h⟩

/-- Instance of C7: a sequence without inventory object comes back whole, a
sequence with two inventory objects gives the error of the classifier. -/
theorem inventoryInfo_passthrough_witness :
    (NewProvider (demoFactory none none)).InventoryInfo (demoInventory none)
        [1, 2] [] = .ret (none, [1, 2], none) [] ∧
      (NewProvider (demoFactory none none)).InventoryInfo (demoInventory none)
        [0, 1, 0] [] = .ret (none, [], some "multiple inventory objects") [] :=
  ⟨(inventoryInfo_passthrough (demoInventory none) (demoFactory none none)
      [1, 2] []).2.1 none [] rfl,
   (inventoryInfo_passthrough (demoInventory none) (demoFactory none none)
      [0, 1, 0] []).2.2 none [] "multiple inventory objects" [] rfl⟩

/-- C8: for a provider built from factory `H`, `InventoryClient` has exactly the
outcome of `inventory.NewInventoryClient` called with `H`,
`inventory.WrapInventoryObj` and `inventory.InvInfoToConfigMap`: the same client
with a nil error on success, the same error on failure. -/
theorem inventoryClient_passthrough (inventory : InventoryPkg T) (H : Factory T)
    (s : T.World) :
    (NewProvider H).InventoryClient inventory s =
        inventory.NewInventoryClient H inventory.WrapInventoryObj
          inventory.InvInfoToConfigMap s ∧
      (∀ c st,
        inventory.NewInventoryClient H inventory.WrapInventoryObj
          inventory.InvInfoToConfigMap s = .ret (c, none) st →
        (NewProvider H).InventoryClient inventory s = .ret (c, none) st) ∧
      (∀ c e st,
        inventory.NewInventoryClient H inventory.WrapInventoryObj
          inventory.InvInfoToConfigMap s = .ret (c, some e) st →
        (NewProvider H).InventoryClient inventory s = .ret (c, some e) st) :=
  ⟨rfl, fun _ _ h => h, fun _ _ _ h => h⟩

/-- Instance of C8: the constructor receives the two strategies; its client and
its error come back unchanged. -/
theorem inventoryClient_passthrough_witness :
    (NewProvider (demoFactory none none)).InventoryClient (demoInventory none) [] =
        .ret (("WrapInventoryObj", "InvInfoToConfigMap"), none)
          ["NewInventoryClient"] ∧
      (NewProvider (demoFactory none none)).InventoryClient
          (demoInventory (some "no cluster")) [] =
        .ret (("WrapInventoryObj", "InvInfoToConfigMap"), some "no cluster")
          ["NewInventoryClient"] :=
  ⟨(inventoryClient_passthrough (demoInventory none) (demoFactory none none) []).2.1
      _ _ rfl,
   (inventoryClient_passthrough (demoInventory (some "no cluster"))
      (demoFactory none none) []).2.2 _ _ _ rfl⟩

/-- C9: for a provider built from factory `H`, `ToRESTMapper` has exactly the
outcome of the REST-mapper builder of `H`: the same mapper with a nil error on
success, the same error on failure. -/
theorem toRESTMapper_passthrough (H : Factory T) (s : T.World) :
    (NewProvider H).ToRESTMapper s = H.ToRESTMapper s ∧
      (∀ m st, H.ToRESTMapper s = .ret (m, none) st →
        (NewProvider H).ToRESTMapper s = .ret (m, none) st) ∧
      (∀ m e st, H.ToRESTMapper s = .ret (m, some e) st →
        (NewProvider H).ToRESTMapper s = .ret (m, some e) st) :=
  ⟨rfl, fun _ _ h => h, fun _ _ _ h => h⟩

/-- Instance of C9: a mapper on success, the error of the builder on failure. -/
theorem toRESTMapper_passthrough_witness :
    (NewProvider (demoFactory none none)).ToRESTMapper [] =
        .ret ("mapper", none) ["ToRESTMapper"] ∧
      (NewProvider (demoFactory none (some "discovery failed"))).ToRESTMapper [] =
        .ret ("mapper", some "discovery failed") ["ToRESTMapper"] :=
  ⟨(toRESTMapper_passthrough (demoFactory none none) []).2.1 _ _ rfl,
   (toRESTMapper_passthrough (demoFactory none (some "discovery failed")) []).2.2
      _ _ _ rfl⟩

end AccessorClaims

end Provider
